import Mathlib

/-!
Shallow embedding of the SafeBox sandboxed-execution engine
(src/sandbox/sandbox_core.py and src/sandbox/sandbox_manager.py).

Modelling conventions:
- Python floats are modelled as rationals (ℚ); the claims only compare
  and copy these values, so no floating-point rounding is involved.
- Live operating-system observations (psutil reads, subprocess spawning,
  the filesystem, the clock) are explicit inputs: a `PsSample` stands for
  what one round of psutil calls would report, a `SpawnResult` for what
  `subprocess.Popen` + `communicate` would do, a list of sandbox ids for
  the set of workspace directories existing on disk, and `String`
  timestamps for `datetime.now().isoformat()` values.
- Python dicts are modelled as association lists with unique keys
  (`dict_get` / `dict_set` / `dict_del` below mirror `d[k]`, `d[k] = v`,
  `del d[k]`).
- Exceptions are modelled structurally: `execute_program_ex` is the body
  of `SandboxEnvironment.execute_program` with the spawn failure surfaced
  as `Except.error`, and `execute_program` is the catch-all handler
  around it (`except Exception: ... return -1`).
-/

namespace SafeBox

/-- The `SandboxConfig` dataclass of sandbox_core.py: per-run limits.
Field defaults in the source: max_cpu_percent=20.0, max_memory_mb=256,
max_duration_seconds=300, network_enabled=False, file_access_allowed=False,
processes_allowed=10. -/
structure SandboxConfig where
  sandbox_id : String
  max_cpu_percent : ℚ
  max_memory_mb : Int
  max_duration_seconds : Int
  network_enabled : Bool
  file_access_allowed : Bool
  processes_allowed : Int
deriving Repr, DecidableEq

/-- One round of live psutil observations of the sandboxed main process:
whether the process still exists (a vanished process raises
`psutil.NoSuchProcess`), its cpu_percent, its memory rss in MB, and the
number of descendant processes returned by `get_child_processes()`. -/
structure PsSample where
  alive : Bool
  cpu_percent : ℚ
  memory_mb : ℚ
  num_children : Nat
deriving Repr, DecidableEq

/-- The usage dict returned by `SandboxEnvironment.monitor_resource_usage`:
`{'cpu_percent': ..., 'memory_mb': ..., 'num_processes': ...}`. -/
structure ResourceUsage where
  cpu_percent : ℚ
  memory_mb : ℚ
  num_processes : Nat
deriving Repr, DecidableEq

/-- `monitor_resource_usage`: defaults of 0 when there is no main process
or the psutil reads raise `NoSuchProcess` (the first read raises before
any field of the dict is overwritten); otherwise copies the live sample,
counting `len(get_child_processes()) + 1` processes. -/
def monitor_resource_usage (has_main : Bool) (s : PsSample) : ResourceUsage :=
  if has_main ∧ s.alive then
    { cpu_percent := s.cpu_percent, memory_mb := s.memory_mb,
      num_processes := s.num_children + 1 }
  else
    { cpu_percent := 0, memory_mb := 0, num_processes := 0 }

/-- The four anomaly strings `check_anomalies` can append, as a tagged
type carrying the interpolated values; `anomalyText` renders each tag to
the f-string of the source. -/
inductive Anomaly where
  | cpuExceeded (cpu maxCpu : ℚ)
  | memoryExceeded (mem : ℚ) (maxMem : Int)
  | tooManyProcesses (n : Nat) (maxProcs : Int)
  | forkBombSuspected
deriving Repr, DecidableEq

/-- Rendering of each anomaly tag to the message string built in
`check_anomalies` (numeric formatting abstracted by `toString`). -/
def anomalyText : Anomaly → String
  | .cpuExceeded c m =>
      "CPU usage exceeds limit: " ++ toString c ++ "% > " ++ toString m ++ "%"
  | .memoryExceeded mem mm =>
      "Memory usage exceeds limit: " ++ toString mem ++ "MB > " ++ toString mm ++ "MB"
  | .tooManyProcesses n mp =>
      "Too many processes: " ++ toString n ++ " > " ++ toString mp
  | .forkBombSuspected => "Possible fork bomb detected"

/-- `SandboxEnvironment.check_anomalies` as a list of tags: empty when
there is no main process or the process has vanished (`NoSuchProcess` is
raised by the first psutil read, before any append); otherwise the four
checks in source order — cpu, memory, process count against
`processes_allowed`, and the fixed fork-bomb threshold of 50. Both
process-count checks use `len(get_child_processes())` (children only,
without the main process). -/
def check_anomaly_flags (cfg : SandboxConfig) (has_main : Bool) (s : PsSample) :
    List Anomaly :=
  if ¬ has_main then []
  else if ¬ s.alive then []
  else
    (if s.cpu_percent > cfg.max_cpu_percent then
        [Anomaly.cpuExceeded s.cpu_percent cfg.max_cpu_percent] else []) ++
    (if s.memory_mb > (cfg.max_memory_mb : ℚ) then
        [Anomaly.memoryExceeded s.memory_mb cfg.max_memory_mb] else []) ++
    (if (s.num_children : Int) > cfg.processes_allowed then
        [Anomaly.tooManyProcesses s.num_children cfg.processes_allowed] else []) ++
    (if s.num_children > 50 then [Anomaly.forkBombSuspected] else [])

/-- `check_anomalies` as in the source: the list of rendered strings. -/
def check_anomalies (cfg : SandboxConfig) (has_main : Bool) (s : PsSample) :
    List String :=
  (check_anomaly_flags cfg has_main s).map anomalyText

/-- The `SandboxReport` dataclass of sandbox_core.py. -/
structure SandboxReport where
  sandbox_id : String
  start_time : String
  end_time : Option String
  status : String
  return_code : Option Int
  total_processes : Nat
  total_cpu_used : ℚ
  total_memory_used : ℚ
  network_activity : List String
  file_access_attempts : List String
  anomalies_detected : List String
deriving Repr, DecidableEq

/-- The per-sandbox state of a `SandboxEnvironment` object: its config,
its creation timestamp (`created_at`), whether `self.main_process` has
been set by a successful spawn, and the two log lists. -/
structure SandboxState where
  config : SandboxConfig
  created_at : String
  has_main : Bool
  network_monitor : List String
  file_access_log : List String
deriving Repr, DecidableEq

/-- `SandboxEnvironment.generate_report(status, return_code)`: calls
`monitor_resource_usage` and `check_anomalies` (each doing fresh live
psutil reads, passed here as the two samples) and assembles the report
with `end_time = datetime.now().isoformat()` (the `now` argument). -/
def generate_report (sb : SandboxState) (s_usage s_anom : PsSample)
    (now : String) (status : String) (return_code : Option Int) : SandboxReport :=
  let usage := monitor_resource_usage sb.has_main s_usage
  { sandbox_id := sb.config.sandbox_id
    start_time := sb.created_at
    end_time := some now
    status := status
    return_code := return_code
    total_processes := usage.num_processes
    total_cpu_used := usage.cpu_percent
    total_memory_used := usage.memory_mb
    network_activity := sb.network_monitor
    file_access_attempts := sb.file_access_log
    anomalies_detected := check_anomalies sb.config sb.has_main s_anom }

/-- What the operating system does for one `execute_program` call:
either `subprocess.Popen` raises (missing interpreter, permission
denied, ...), or the target is spawned and would run for `run_seconds`
before exiting with `exit_code`. -/
inductive SpawnResult where
  | spawnFail (msg : String)
  | spawned (run_seconds : ℚ) (exit_code : Int)
deriving Repr, DecidableEq

/-- The effective timeout of `execute_program`: the Python expression
`timeout or self.config.max_duration_seconds` falls back to the config
value when the argument is `None` or `0` (both falsy). -/
def effective_timeout (cfg : SandboxConfig) (timeout : Option Int) : Int :=
  match timeout with
  | none => cfg.max_duration_seconds
  | some t => if t = 0 then cfg.max_duration_seconds else t

/-- Body of `SandboxEnvironment.execute_program` inside the outer `try`:
a spawn failure propagates as an exception (`Except.error`); after a
successful spawn `self.main_process` is set, and `communicate(timeout)`
either returns the target's exit code or raises `TimeoutExpired`, which
the inner handler turns into kill + return code -1 — the timeout never
escapes this body. Returns the exit code and the updated sandbox state. -/
def execute_program_ex (sb : SandboxState) (timeout : Option Int)
    (w : SpawnResult) : Except String (Int × SandboxState) :=
  match w with
  | .spawnFail msg => Except.error msg
  | .spawned dur code =>
      let sb2 : SandboxState := { sb with has_main := true }
      if (effective_timeout sb.config timeout : ℚ) < dur then
        Except.ok (-1, sb2)
      else
        Except.ok (code, sb2)

/-- `SandboxEnvironment.execute_program`: the outer
`except Exception as e: print(...); return -1` around the body — every
exception is swallowed and the call returns -1. -/
def execute_program (sb : SandboxState) (timeout : Option Int)
    (w : SpawnResult) : Int × SandboxState :=
  match execute_program_ex sb timeout w with
  | .ok r => r
  | .error _ => (-1, sb)

/-- `SandboxEnvironment.terminate(rmtree_ok, fs)`: signals/kills the
process tree, then `shutil.rmtree(self.sandbox_dir)` inside
`try ... except Exception: pass` — when the removal succeeds the
workspace directory (identified by the sandbox id) disappears from the
filesystem `fs`, when it fails `fs` is unchanged; the method returns
`True` unconditionally. -/
def SandboxEnvironment.terminate (sb : SandboxState) (fs : List String)
    (rmtree_ok : Bool) : Bool × List String :=
  (true,
    if rmtree_ok then fs.filter (fun d => d ≠ sb.config.sandbox_id) else fs)

/-- Lookup in the association-list model of a Python dict (`d[k]` /
`k in d`). -/
def dict_get (l : List (String × SandboxState)) (id : String) :
    Option SandboxState :=
  match l with
  | [] => none
  | (k, v) :: rest => if k = id then some v else dict_get rest id

/-- `del d[k]` on the association-list model; keys are unique in a
Python dict, so removing every pair with the key is faithful. -/
def dict_del (l : List (String × SandboxState)) (id : String) :
    List (String × SandboxState) :=
  l.filter (fun kv => kv.1 ≠ id)

/-- `d[k] = v` on the association-list model: any existing binding for
the key is replaced. -/
def dict_set (l : List (String × SandboxState)) (id : String)
    (v : SandboxState) : List (String × SandboxState) :=
  dict_del l id ++ [(id, v)]

/-- The state of a `SandboxManager` object: `self.active_sandboxes`
(a dict from sandbox id to `SandboxEnvironment`) plus the reports written
to disk by `_save_report`, in order. -/
structure SandboxManager where
  active_sandboxes : List (String × SandboxState)
  saved_reports : List SandboxReport
deriving Repr, DecidableEq

/-- The `SandboxEnvironment` built by the module-level `create_sandbox`
factory: a fresh config with the given limits (network_enabled=False,
file_access_allowed=False, processes_allowed=10 from the dataclass
defaults), workspace directory created, no main process yet, empty
logs, `created_at = datetime.now().isoformat()`. -/
def mk_sandbox (sandbox_id : String) (max_cpu : ℚ) (max_memory_mb : Int)
    (max_duration : Int) (now : String) : SandboxState :=
  { config :=
      { sandbox_id := sandbox_id
        max_cpu_percent := max_cpu
        max_memory_mb := max_memory_mb
        max_duration_seconds := max_duration
        network_enabled := false
        file_access_allowed := false
        processes_allowed := 10 }
    created_at := now
    has_main := false
    network_monitor := []
    file_access_log := [] }

/-- `SandboxManager.create_sandbox`: builds a sandbox via the factory
(the fresh uuid-derived id is the `fresh_id` input) and registers it in
`active_sandboxes`, returning its id. -/
def SandboxManager.create_sandbox (m : SandboxManager) (fresh_id : String)
    (max_cpu : ℚ) (max_memory_mb : Int) (max_duration : Int) (now : String) :
    String × SandboxManager :=
  (fresh_id,
    { m with
        active_sandboxes :=
          dict_set m.active_sandboxes fresh_id
            (mk_sandbox fresh_id max_cpu max_memory_mb max_duration now) })

/-- `SandboxManager.get_report`: `None` for an unknown id; otherwise
`sandbox.generate_report('running')` — the status argument is always the
string 'running' and the return code always `None`. Returned together
with the (unchanged) manager state. -/
def SandboxManager.get_report (m : SandboxManager) (id : String)
    (s_usage s_anom : PsSample) (now : String) :
    Option SandboxReport × SandboxManager :=
  match dict_get m.active_sandboxes id with
  | none => (none, m)
  | some sb => (some (generate_report sb s_usage s_anom now "running" none), m)

/-- `SandboxManager.stop_sandbox`: `False` for an unknown id; otherwise
`sandbox.terminate()` (which always returns True), `del` from
`active_sandboxes`, and return `True`. The filesystem `fs` and the
success of `shutil.rmtree` are threaded through to `terminate`. -/
def SandboxManager.stop_sandbox (m : SandboxManager) (id : String)
    (fs : List String) (rmtree_ok : Bool) :
    Bool × SandboxManager × List String :=
  match dict_get m.active_sandboxes id with
  | none => (false, m, fs)
  | some sb =>
      let t := SandboxEnvironment.terminate sb fs rmtree_ok
      (true,
        { m with active_sandboxes := dict_del m.active_sandboxes id },
        t.2)

/-- Everything the operating system contributes to one
`execute_in_sandbox` call: whether the target file exists (the only
condition under which `pre_analyze_file` returns an `'error'` key — the
`MalwareDetector.scan` collaborator, absent from src/, returns
`{threat_level, risk, detections}` per the spec and never an error),
the spawn outcome, the two live samples taken by the post-analysis
(`monitor_resource_usage` then `check_anomalies`), the two further live
samples taken inside `generate_report`, and the report timestamp. -/
structure ExecWorld where
  file_exists : Bool
  spawn : SpawnResult
  post_usage : PsSample
  post_anom : PsSample
  report_usage : PsSample
  report_anom : PsSample
  now : String
deriving Repr, DecidableEq

/-- The three return shapes of `SandboxManager.execute_in_sandbox`:
`{'error': 'Sandbox not found'}`, the pre-analysis error dict passed
through (`{'error': 'File not found', ...}`), or the success dict with
return code, resource usage, anomaly list and report. -/
inductive ExecOutcome where
  | sandboxNotFound
  | preAnalysisError
  | executed (return_code : Int) (usage : ResourceUsage)
      (anomalies : List String) (report : SandboxReport)
deriving Repr, DecidableEq

/-- `SandboxManager.execute_in_sandbox`: unknown id → error dict;
pre-analysis error (file missing) → that dict; otherwise run
`execute_program` (no timeout argument: the config's
max_duration_seconds applies), post-analyze with fresh samples, build a
report with the literal status 'completed' and the returned code, save
it via `_save_report`, and return the success dict. The sandbox object
is mutated in place (its `main_process` may be set), which the returned
manager reflects. -/
def SandboxManager.execute_in_sandbox (m : SandboxManager) (id : String)
    (w : ExecWorld) : ExecOutcome × SandboxManager :=
  match dict_get m.active_sandboxes id with
  | none => (.sandboxNotFound, m)
  | some sb =>
      if ¬ w.file_exists then (.preAnalysisError, m)
      else
        let r := execute_program sb none w.spawn
        let usage := monitor_resource_usage r.2.has_main w.post_usage
        let anomalies := check_anomalies r.2.config r.2.has_main w.post_anom
        let report :=
          generate_report r.2 w.report_usage w.report_anom w.now
            "completed" (some r.1)
        (.executed r.1 usage anomalies report,
          { active_sandboxes := dict_set m.active_sandboxes id r.2
            saved_reports := m.saved_reports ++ [report] })

/-- JSON values as persisted by `json.dump` in `_save_report`. -/
inductive JValue where
  | null
  | str (s : String)
  | int (n : Int)
  | num (q : ℚ)
  | arr (xs : List JValue)
deriving Repr

/-- Lookup of a field in the serialized dict. -/
def jlookup (l : List (String × JValue)) (k : String) : Option JValue :=
  match l with
  | [] => none
  | (k2, v) :: rest => if k2 = k then some v else jlookup rest k

/-- `SandboxReport.to_dict` (`dataclasses.asdict`) followed by
`json.dump`: the flat field dict of the report, with `None` as JSON
null and the string lists as JSON arrays. -/
def SandboxReport.to_dict (r : SandboxReport) : List (String × JValue) :=
  [("sandbox_id", .str r.sandbox_id),
   ("start_time", .str r.start_time),
   ("end_time", match r.end_time with | none => .null | some t => .str t),
   ("status", .str r.status),
   ("return_code", match r.return_code with | none => .null | some n => .int n),
   ("total_processes", .int (r.total_processes : Int)),
   ("total_cpu_used", .num r.total_cpu_used),
   ("total_memory_used", .num r.total_memory_used),
   ("network_activity", .arr (r.network_activity.map JValue.str)),
   ("file_access_attempts", .arr (r.file_access_attempts.map JValue.str)),
   ("anomalies_detected", .arr (r.anomalies_detected.map JValue.str))]

/-- Decodes a JSON array of strings. -/
def decode_str_list : JValue → Option (List String)
  | .arr xs => go xs
  | _ => none
where
  go : List JValue → Option (List String)
    | [] => some []
    | .str s :: rest => (go rest).map (fun l => s :: l)
    | _ => none

/-- Modelled from the spec: the repository persists each report via
`json.dump(report.to_dict())` (`SandboxManager._save_report`) but
contains no deserializer; this decoder reads the persisted dict back
into a `SandboxReport`, field for field, as the spec's round-trip
property requires. -/
def SandboxReport.from_dict (l : List (String × JValue)) :
    Option SandboxReport := do
  let sid ← match jlookup l "sandbox_id" with | some (.str s) => some s | _ => none
  let st ← match jlookup l "start_time" with | some (.str s) => some s | _ => none
  let et ← match jlookup l "end_time" with
    | some .null => some none
    | some (.str s) => some (some s)
    | _ => none
  let status ← match jlookup l "status" with | some (.str s) => some s | _ => none
  let rc ← match jlookup l "return_code" with
    | some .null => some none
    | some (.int n) => some (some n)
    | _ => none
  let tp ← match jlookup l "total_processes" with
    | some (.int n) => if n < 0 then none else some n.toNat
    | _ => none
  let tc ← match jlookup l "total_cpu_used" with | some (.num q) => some q | _ => none
  let tm ← match jlookup l "total_memory_used" with | some (.num q) => some q | _ => none
  let na ← match jlookup l "network_activity" with
    | some v => decode_str_list v | _ => none
  let fa ← match jlookup l "file_access_attempts" with
    | some v => decode_str_list v | _ => none
  let an ← match jlookup l "anomalies_detected" with
    | some v => decode_str_list v | _ => none
  some
    { sandbox_id := sid, start_time := st, end_time := et, status := status
      return_code := rc, total_processes := tp, total_cpu_used := tc
      total_memory_used := tm, network_activity := na
      file_access_attempts := fa, anomalies_detected := an }

/-- A concrete policy with the source's dataclass defaults. -/
def cfgDemo : SandboxConfig :=
  { sandbox_id := "sb-demo", max_cpu_percent := 20, max_memory_mb := 256,
    max_duration_seconds := 300, network_enabled := false,
    file_access_allowed := false, processes_allowed := 10 }

/-- A freshly created sandbox (no main process yet). -/
def sbDemo : SandboxState :=
  { config := cfgDemo, created_at := "2026-01-01T00:00:00",
    has_main := false, network_monitor := [], file_access_log := [] }

/-- The same sandbox after a successful spawn set `main_process`. -/
def sbDemoRunning : SandboxState := { sbDemo with has_main := true }

/-- A quiet live sample: well under every limit. -/
def sampleIdle : PsSample :=
  { alive := true, cpu_percent := 5, memory_mb := 10, num_children := 0 }

/-- A busy live sample: cpu above the demo policy limit. -/
def sampleBusy : PsSample :=
  { alive := true, cpu_percent := 80, memory_mb := 10, num_children := 0 }

/-- A live sample showing 60 tracked child processes. -/
def sampleFork : PsSample :=
  { alive := true, cpu_percent := 5, memory_mb := 10, num_children := 60 }

/-- A manager with no sandboxes. -/
def mgrEmpty : SandboxManager := { active_sandboxes := [], saved_reports := [] }

/-- A manager holding the freshly created demo sandbox. -/
def mgrDemo : SandboxManager :=
  { active_sandboxes := [("sb-demo", sbDemo)], saved_reports := [] }

/-- A manager holding the demo sandbox with its main process set. -/
def mgrDemoRunning : SandboxManager :=
  { active_sandboxes := [("sb-demo", sbDemoRunning)], saved_reports := [] }

/-- A manager with the demo sandbox and one further sandbox. -/
def mgrDemoTwo : SandboxManager :=
  { active_sandboxes := [("sb-demo", sbDemo), ("sb-other", sbDemoRunning)],
    saved_reports := [] }

/-- An execution in which the target would run 600 s, past the 300 s
limit of the demo policy. -/
def worldTimeout : ExecWorld :=
  { file_exists := true, spawn := SpawnResult.spawned 600 0,
    post_usage := sampleIdle, post_anom := sampleIdle,
    report_usage := sampleIdle, report_anom := sampleIdle,
    now := "2026-01-01T00:10:00" }

/-- An execution in which `Popen` fails on an existing file. -/
def worldSpawnFail : ExecWorld :=
  { worldTimeout with spawn := SpawnResult.spawnFail "Permission denied" }

/-- An execution that finishes quickly with exit code 0. -/
def worldQuick : ExecWorld :=
  { worldTimeout with spawn := SpawnResult.spawned 1 0 }

/-- Setting a key makes it retrievable: `d[k] = v` then `d[k]` is `v`. -/
theorem dict_get_set_self (l : List (String × SandboxState)) (id : String)
    (v : SandboxState) : dict_get (dict_set l id v) id = some v := by
  induction l with
  | nil => simp [dict_set, dict_del, dict_get]
  | cons hd tl ih =>
      by_cases h : hd.1 = id <;>
        simp [dict_set, dict_del, dict_get, List.filter_cons, h] at ih ⊢ <;>
        simpa [dict_set, dict_del] using ih

/-- Deleting a key makes lookup fail: after `del d[k]`, `k` is absent. -/
theorem dict_get_del_self (l : List (String × SandboxState)) (id : String) :
    dict_get (dict_del l id) id = none := by
  induction l with
  | nil => rfl
  | cons hd tl ih =>
      by_cases h : hd.1 = id <;>
        simp [dict_del, dict_get, List.filter_cons, h] at ih ⊢ <;>
        simpa [dict_del] using ih

/-- Decoding inverts encoding for string arrays. -/
theorem decode_go_map (l : List String) :
    decode_str_list.go (l.map JValue.str) = some l := by
  induction l with
  | nil => rfl
  | cons hd tl ih => simp [decode_str_list.go, ih]

/-- A concatenation of four optional singletons is a sublist of the list
of the four elements in order. -/
theorem opt_singletons_sublist {α : Type} (p q r t : Prop)
    [Decidable p] [Decidable q] [Decidable r] [Decidable t] (a b c d : α) :
    List.Sublist
      ((if p then [a] else []) ++ (if q then [b] else []) ++
        (if r then [c] else []) ++ (if t then [d] else []))
      [a, b, c, d] := by
  have ha : List.Sublist (if p then [a] else []) [a] := by split <;> simp
  have hb : List.Sublist (if q then [b] else []) [b] := by split <;> simp
  have hc : List.Sublist (if r then [c] else []) [c] := by split <;> simp
  have hd : List.Sublist (if t then [d] else []) [d] := by split <;> simp
  simpa using ha.append (hb.append (hc.append hd))

/-- Claim C5: for any policy, `create()` followed immediately by
`get_report()` on the returned id yields a report whose status is the
string 'running' — never 'completed' — because `get_report` always calls
`generate_report('running')`. -/
theorem claim_C5_create_then_report_running
    (m : SandboxManager) (fresh_id : String) (max_cpu : ℚ)
    (max_memory_mb max_duration : Int) (now : String)
    (s_usage s_anom : PsSample) (now2 : String) :
    ((m.create_sandbox fresh_id max_cpu max_memory_mb max_duration now).2.get_report
        (m.create_sandbox fresh_id max_cpu max_memory_mb max_duration now).1
        s_usage s_anom now2).1 =
      some (generate_report
        (mk_sandbox fresh_id max_cpu max_memory_mb max_duration now)
        s_usage s_anom now2 "running" none) ∧
    (generate_report (mk_sandbox fresh_id max_cpu max_memory_mb max_duration now)
        s_usage s_anom now2 "running" none).status = "running" ∧
    (generate_report (mk_sandbox fresh_id max_cpu max_memory_mb max_duration now)
        s_usage s_anom now2 "running" none).status ≠ "completed" := by
  refine ⟨?_, rfl, by simp [generate_report]⟩
  simp [SandboxManager.get_report, SandboxManager.create_sandbox, dict_get_set_self]

/-- Claim C6: anomaly detection over the latest live sample and the
policy produces the flags in the fixed order cpu, memory, process-count,
fork-bomb (the result is a sublist of that canonical sequence); each
flag is present exactly when its threshold comparison holds, and the
fork-bomb flag at the fixed threshold 50 is present iff more than 50
children are tracked, for every value of the policy's process limit. -/
theorem claim_C6_anomaly_detection (cfg : SandboxConfig) (s : PsSample)
    (halive : s.alive = true) :
    (Anomaly.cpuExceeded s.cpu_percent cfg.max_cpu_percent ∈
        check_anomaly_flags cfg true s ↔ s.cpu_percent > cfg.max_cpu_percent) ∧
    (Anomaly.memoryExceeded s.memory_mb cfg.max_memory_mb ∈
        check_anomaly_flags cfg true s ↔ s.memory_mb > (cfg.max_memory_mb : ℚ)) ∧
    (Anomaly.tooManyProcesses s.num_children cfg.processes_allowed ∈
        check_anomaly_flags cfg true s ↔
        (s.num_children : Int) > cfg.processes_allowed) ∧
    (∀ mp : Int,
      Anomaly.forkBombSuspected ∈
          check_anomaly_flags { cfg with processes_allowed := mp } true s ↔
        s.num_children > 50) ∧
    List.Sublist (check_anomaly_flags cfg true s)
      [Anomaly.cpuExceeded s.cpu_percent cfg.max_cpu_percent,
       Anomaly.memoryExceeded s.memory_mb cfg.max_memory_mb,
       Anomaly.tooManyProcesses s.num_children cfg.processes_allowed,
       Anomaly.forkBombSuspected] := by
  refine ⟨?_, ?_, ?_, ?_, ?_⟩
  · by_cases h1 : s.cpu_percent > cfg.max_cpu_percent <;>
    by_cases h2 : s.memory_mb > (cfg.max_memory_mb : ℚ) <;>
    by_cases h3 : (s.num_children : Int) > cfg.processes_allowed <;>
    by_cases h4 : s.num_children > 50 <;>
      simp [check_anomaly_flags, halive, h1, h2, h3, h4]
  · by_cases h1 : s.cpu_percent > cfg.max_cpu_percent <;>
    by_cases h2 : s.memory_mb > (cfg.max_memory_mb : ℚ) <;>
    by_cases h3 : (s.num_children : Int) > cfg.processes_allowed <;>
    by_cases h4 : s.num_children > 50 <;>
      simp [check_anomaly_flags, halive, h1, h2, h3, h4]
  · by_cases h1 : s.cpu_percent > cfg.max_cpu_percent <;>
    by_cases h2 : s.memory_mb > (cfg.max_memory_mb : ℚ) <;>
    by_cases h3 : (s.num_children : Int) > cfg.processes_allowed <;>
    by_cases h4 : s.num_children > 50 <;>
      simp [check_anomaly_flags, halive, h1, h2, h3, h4]
  · intro mp
    by_cases h1 : s.cpu_percent > cfg.max_cpu_percent <;>
    by_cases h2 : s.memory_mb > (cfg.max_memory_mb : ℚ) <;>
    by_cases h3 : (s.num_children : Int) > mp <;>
    by_cases h4 : s.num_children > 50 <;>
      simp [check_anomaly_flags, halive, h1, h2, h3, h4]
  · simpa [check_anomaly_flags, halive] using
      opt_singletons_sublist
        (s.cpu_percent > cfg.max_cpu_percent)
        (s.memory_mb > (cfg.max_memory_mb : ℚ))
        ((s.num_children : Int) > cfg.processes_allowed)
        (s.num_children > 50)
        (Anomaly.cpuExceeded s.cpu_percent cfg.max_cpu_percent)
        (Anomaly.memoryExceeded s.memory_mb cfg.max_memory_mb)
        (Anomaly.tooManyProcesses s.num_children cfg.processes_allowed)
        Anomaly.forkBombSuspected

/-- Witness for claim C6 at a concrete policy and a sample with 60
children, by direct application of the claim theorem. -/
theorem claim_C6_witness :
    (Anomaly.cpuExceeded sampleFork.cpu_percent cfgDemo.max_cpu_percent ∈
        check_anomaly_flags cfgDemo true sampleFork ↔
          sampleFork.cpu_percent > cfgDemo.max_cpu_percent) ∧
    (Anomaly.memoryExceeded sampleFork.memory_mb cfgDemo.max_memory_mb ∈
        check_anomaly_flags cfgDemo true sampleFork ↔
          sampleFork.memory_mb > (cfgDemo.max_memory_mb : ℚ)) ∧
    (Anomaly.tooManyProcesses sampleFork.num_children cfgDemo.processes_allowed ∈
        check_anomaly_flags cfgDemo true sampleFork ↔
        (sampleFork.num_children : Int) > cfgDemo.processes_allowed) ∧
    (∀ mp : Int,
      Anomaly.forkBombSuspected ∈
          check_anomaly_flags { cfgDemo with processes_allowed := mp } true sampleFork ↔
        sampleFork.num_children > 50) ∧
    List.Sublist (check_anomaly_flags cfgDemo true sampleFork)
      [Anomaly.cpuExceeded sampleFork.cpu_percent cfgDemo.max_cpu_percent,
       Anomaly.memoryExceeded sampleFork.memory_mb cfgDemo.max_memory_mb,
       Anomaly.tooManyProcesses sampleFork.num_children cfgDemo.processes_allowed,
       Anomaly.forkBombSuspected] :=
  claim_C6_anomaly_detection cfgDemo sampleFork rfl

/-- Claim C7: serializing a report to its persisted dict form and
deserializing it back yields the original report, field for field. -/
theorem claim_C7_report_round_trip (r : SandboxReport) :
    SandboxReport.from_dict (SandboxReport.to_dict r) = some r := by
  cases r with
  | mk sid st et status rc tp tc tm na fa an =>
      have htp : ¬ ((tp : Int) < 0) := by omega
      cases et <;> cases rc <;>
        simp [SandboxReport.to_dict, SandboxReport.from_dict, jlookup,
          decode_str_list, decode_go_map, htp]

/-- Claim C8 counterexample: two `generate_report` calls on the same
logged sandbox state and the same clock — differing only in what the
live psutil reads return at report time — produce reports with equal
end_time but different total_cpu_used, so the report is not a function
of the logged state alone (up to end_time), refuting the claim. -/
theorem claim_C8_counterexample :
    (generate_report sbDemoRunning sampleIdle sampleIdle "t0" "running" none).end_time =
      (generate_report sbDemoRunning sampleBusy sampleBusy "t0" "running" none).end_time ∧
    (generate_report sbDemoRunning sampleIdle sampleIdle "t0" "running" none).total_cpu_used ≠
      (generate_report sbDemoRunning sampleBusy sampleBusy "t0" "running" none).total_cpu_used := by
  exact ⟨rfl, by decide⟩

/-- Claim C8 (amended): `get_report` mutates no manager or sandbox
state; its report depends only on the looked-up sandbox's stored state,
the live samples taken at report time, and the clock; and of the report
fields only end_time depends on the clock. -/
theorem claim_C8_report_determinism :
    (∀ (m : SandboxManager) (id : String) (s_usage s_anom : PsSample)
        (now : String), (m.get_report id s_usage s_anom now).2 = m) ∧
    (∀ (m1 m2 : SandboxManager) (id : String) (s_usage s_anom : PsSample)
        (now : String),
        dict_get m1.active_sandboxes id = dict_get m2.active_sandboxes id →
        (m1.get_report id s_usage s_anom now).1 =
          (m2.get_report id s_usage s_anom now).1) ∧
    (∀ (sb : SandboxState) (s_usage s_anom : PsSample)
        (now1 now2 status : String) (rc : Option Int),
        { generate_report sb s_usage s_anom now1 status rc with
            end_time := some now2 } =
          generate_report sb s_usage s_anom now2 status rc) := by
  refine ⟨?_, ?_, ?_⟩
  · intro m id s_usage s_anom now
    simp only [SandboxManager.get_report]
    split <;> rfl
  · intro m1 m2 id s_usage s_anom now h
    simp only [SandboxManager.get_report, h]
    cases hd : dict_get m2.active_sandboxes id <;> simp [hd]
  · intro sb s_usage s_anom now1 now2 status rc
    rfl

/-- Witness for claim C8: the amended determinism applied to two
concrete managers that store the same demo sandbox. -/
theorem claim_C8_witness :
    (mgrDemo.get_report "sb-demo" sampleIdle sampleIdle "t0").1 =
      (mgrDemoTwo.get_report "sb-demo" sampleIdle sampleIdle "t0").1 :=
  claim_C8_report_determinism.2.1 mgrDemo mgrDemoTwo "sb-demo"
    sampleIdle sampleIdle "t0" rfl

/-- Claim C10: `execute_program` is total at its public interface — the
outer handler catches every exception of the body (spawn failures
included) and returns -1; a timeout kill also returns -1; and a target
that itself exits with -1 inside the timeout also yields -1, so the
three causes are indistinguishable in the returned value. -/
theorem claim_C10_execute_program_total :
    (∀ (sb : SandboxState) (t : Option Int) (w : SpawnResult) (e : String),
        execute_program_ex sb t w = Except.error e →
        execute_program sb t w = (-1, sb)) ∧
    (∀ (sb : SandboxState) (t : Option Int) (msg : String),
        execute_program sb t (SpawnResult.spawnFail msg) = (-1, sb)) ∧
    (∀ (sb : SandboxState) (t : Option Int) (dur : ℚ) (code : Int),
        (effective_timeout sb.config t : ℚ) < dur →
        (execute_program sb t (SpawnResult.spawned dur code)).1 = -1) ∧
    (∀ (sb : SandboxState) (t : Option Int) (dur : ℚ),
        ¬ (effective_timeout sb.config t : ℚ) < dur →
        (execute_program sb t (SpawnResult.spawned dur (-1))).1 = -1) := by
  refine ⟨?_, ?_, ?_, ?_⟩
  · intro sb t w e h
    simp [execute_program, h]
  · intro sb t msg
    rfl
  · intro sb t dur code h
    simp [execute_program, execute_program_ex, h]
  · intro sb t dur h
    simp [execute_program, execute_program_ex, h]

/-- Witness for claim C10: the demo sandbox with its 300 s limit — a
spawn failure, a 600 s run (timeout kill) and a 1 s run exiting with -1
all return -1. -/
theorem claim_C10_witness :
    execute_program sbDemo none (SpawnResult.spawnFail "Permission denied") =
      (-1, sbDemo) ∧
    (execute_program sbDemo none (SpawnResult.spawned 600 0)).1 = -1 ∧
    (execute_program sbDemo none (SpawnResult.spawned 1 (-1))).1 = -1 :=
  ⟨claim_C10_execute_program_total.2.1 sbDemo none "Permission denied",
   claim_C10_execute_program_total.2.2.1 sbDemo none 600 0
     (by norm_num [effective_timeout, sbDemo, cfgDemo]),
   claim_C10_execute_program_total.2.2.2 sbDemo none 1
     (by norm_num [effective_timeout, sbDemo, cfgDemo])⟩

/-- Claim C1 counterexample: a target that would run 600 s under a
300 s limit is killed, yet the one report produced (and saved) for the
run has status 'completed' — not 'terminated' — so the terminal status
claimed for a timed-out run is refuted on the code. -/
theorem claim_C1_counterexample :
    (mgrDemo.execute_in_sandbox "sb-demo" worldTimeout).2.saved_reports.map
        SandboxReport.status = ["completed"] ∧
    "completed" ≠ "terminated" := by
  exact ⟨rfl, by decide⟩

/-- Claim C1 (amended): a run exceeding max_duration_seconds is killed
and yields -1 to the caller — the timeout is never surfaced as an
exception — but the report produced for the run carries the literal
status 'completed' (the code never produces a 'terminated' status nor
records any timeout-kill event). -/
theorem claim_C1_timeout_reported_completed
    (m : SandboxManager) (id : String) (sb : SandboxState) (w : ExecWorld)
    (dur : ℚ) (code : Int)
    (hget : dict_get m.active_sandboxes id = some sb)
    (hfile : w.file_exists = true)
    (hspawn : w.spawn = SpawnResult.spawned dur code)
    (htime : (sb.config.max_duration_seconds : ℚ) < dur) :
    (m.execute_in_sandbox id w).1 =
      ExecOutcome.executed (-1)
        (monitor_resource_usage true w.post_usage)
        (check_anomalies sb.config true w.post_anom)
        (generate_report { sb with has_main := true } w.report_usage
          w.report_anom w.now "completed" (some (-1))) ∧
    (generate_report { sb with has_main := true } w.report_usage
        w.report_anom w.now "completed" (some (-1))).status = "completed" := by
  refine ⟨?_, rfl⟩
  simp [SandboxManager.execute_in_sandbox, hget, hfile, hspawn,
    execute_program, execute_program_ex, effective_timeout, htime]

/-- Witness for claim C1 at the demo sandbox and the 600 s run. -/
theorem claim_C1_witness :
    (mgrDemo.execute_in_sandbox "sb-demo" worldTimeout).1 =
      ExecOutcome.executed (-1)
        (monitor_resource_usage true worldTimeout.post_usage)
        (check_anomalies sbDemo.config true worldTimeout.post_anom)
        (generate_report { sbDemo with has_main := true }
          worldTimeout.report_usage worldTimeout.report_anom worldTimeout.now
          "completed" (some (-1))) ∧
    (generate_report { sbDemo with has_main := true }
        worldTimeout.report_usage worldTimeout.report_anom worldTimeout.now
        "completed" (some (-1))).status = "completed" :=
  claim_C1_timeout_reported_completed mgrDemo "sb-demo" sbDemo worldTimeout
    600 0 rfl rfl rfl (by norm_num [sbDemo, cfgDemo])

/-- Claim C2 counterexample: a spawn failure (permission denied on an
existing file) does not raise a LaunchError or reach an ERROR status —
the run proceeds, a report with status 'completed' is produced and
saved (telemetry is produced), and the outcome is the normal success
dict, refuting the claim on the code. -/
theorem claim_C2_counterexample :
    (mgrDemo.execute_in_sandbox "sb-demo" worldSpawnFail).2.saved_reports.map
        SandboxReport.status = ["completed"] ∧
    (mgrDemo.execute_in_sandbox "sb-demo" worldSpawnFail).1 ≠
      ExecOutcome.sandboxNotFound ∧
    (mgrDemo.execute_in_sandbox "sb-demo" worldSpawnFail).1 ≠
      ExecOutcome.preAnalysisError := by
  refine ⟨rfl, by decide, by decide⟩

/-- Claim C2 (amended): a spawn failure on an existing target is
swallowed inside `execute_program` (which returns -1); the run is still
post-analyzed and reported with status 'completed', and that report is
saved — no LaunchError, no terminal ERROR, telemetry is produced. Only
a nonexistent target path is rejected before execution (the
pre-analysis error), and then no report is produced and no state
changes. -/
theorem claim_C2_spawn_failure_swallowed
    (m : SandboxManager) (id : String) (sb : SandboxState) (w : ExecWorld)
    (msg : String)
    (hget : dict_get m.active_sandboxes id = some sb)
    (hfile : w.file_exists = true)
    (hspawn : w.spawn = SpawnResult.spawnFail msg) :
    (m.execute_in_sandbox id w).1 =
      ExecOutcome.executed (-1)
        (monitor_resource_usage sb.has_main w.post_usage)
        (check_anomalies sb.config sb.has_main w.post_anom)
        (generate_report sb w.report_usage w.report_anom w.now
          "completed" (some (-1))) ∧
    (m.execute_in_sandbox id w).2.saved_reports =
      m.saved_reports ++
        [generate_report sb w.report_usage w.report_anom w.now
          "completed" (some (-1))] ∧
    (generate_report sb w.report_usage w.report_anom w.now
        "completed" (some (-1))).status = "completed" ∧
    (∀ (m2 : SandboxManager) (id2 : String) (w2 : ExecWorld),
        w2.file_exists = false →
        m2.execute_in_sandbox id2 w2 = (ExecOutcome.preAnalysisError, m2) ∨
        m2.execute_in_sandbox id2 w2 = (ExecOutcome.sandboxNotFound, m2)) := by
  refine ⟨?_, ?_, rfl, ?_⟩
  · simp [SandboxManager.execute_in_sandbox, hget, hfile, hspawn,
      execute_program, execute_program_ex]
  · simp [SandboxManager.execute_in_sandbox, hget, hfile, hspawn,
      execute_program, execute_program_ex]
  · intro m2 id2 w2 h2
    cases hd : dict_get m2.active_sandboxes id2 <;>
      simp [SandboxManager.execute_in_sandbox, hd, h2]

/-- Witness for claim C2 at the demo sandbox and a permission-denied
spawn. -/
theorem claim_C2_witness :
    (mgrDemo.execute_in_sandbox "sb-demo" worldSpawnFail).1 =
      ExecOutcome.executed (-1)
        (monitor_resource_usage sbDemo.has_main worldSpawnFail.post_usage)
        (check_anomalies sbDemo.config sbDemo.has_main worldSpawnFail.post_anom)
        (generate_report sbDemo worldSpawnFail.report_usage
          worldSpawnFail.report_anom worldSpawnFail.now
          "completed" (some (-1))) ∧
    (mgrDemo.execute_in_sandbox "sb-demo" worldSpawnFail).2.saved_reports =
      mgrDemo.saved_reports ++
        [generate_report sbDemo worldSpawnFail.report_usage
          worldSpawnFail.report_anom worldSpawnFail.now
          "completed" (some (-1))] ∧
    (generate_report sbDemo worldSpawnFail.report_usage
        worldSpawnFail.report_anom worldSpawnFail.now
        "completed" (some (-1))).status = "completed" ∧
    (∀ (m2 : SandboxManager) (id2 : String) (w2 : ExecWorld),
        w2.file_exists = false →
        m2.execute_in_sandbox id2 w2 = (ExecOutcome.preAnalysisError, m2) ∨
        m2.execute_in_sandbox id2 w2 = (ExecOutcome.sandboxNotFound, m2)) :=
  claim_C2_spawn_failure_swallowed mgrDemo "sb-demo" sbDemo worldSpawnFail
    "Permission denied" rfl rfl rfl

/-- Claim C3 counterexample: stopping the demo sandbox succeeds, but a
second stop on the same id returns False (the id was removed from the
registry), refuting the claimed idempotent repeatable success. -/
theorem claim_C3_counterexample :
    (mgrDemo.stop_sandbox "sb-demo" ["sb-demo"] true).1 = true ∧
    ((mgrDemo.stop_sandbox "sb-demo" ["sb-demo"] true).2.1.stop_sandbox
        "sb-demo" (mgrDemo.stop_sandbox "sb-demo" ["sb-demo"] true).2.2
        true).1 = false := by
  exact ⟨rfl, rfl⟩

/-- Claim C3 (amended): `stop` on an unknown id returns False (not
found) and changes nothing; `stop` on a registered id terminates the
sandbox, removes it from the registry and returns True — after which
the id is unknown, so any repeated `stop` on it returns False rather
than succeeding (there is no terminal-state no-op: a stopped sandbox is
simply gone). -/
theorem claim_C3_stop_semantics :
    (∀ (m : SandboxManager) (id : String) (fs : List String) (rm : Bool),
        dict_get m.active_sandboxes id = none →
        m.stop_sandbox id fs rm = (false, m, fs)) ∧
    (∀ (m : SandboxManager) (id : String) (fs : List String) (rm rm2 : Bool)
        (sb : SandboxState),
        dict_get m.active_sandboxes id = some sb →
        (m.stop_sandbox id fs rm).1 = true ∧
        dict_get (m.stop_sandbox id fs rm).2.1.active_sandboxes id = none ∧
        ((m.stop_sandbox id fs rm).2.1.stop_sandbox id
            (m.stop_sandbox id fs rm).2.2 rm2).1 = false) := by
  refine ⟨?_, ?_⟩
  · intro m id fs rm h
    simp [SandboxManager.stop_sandbox, h]
  · intro m id fs rm rm2 sb h
    refine ⟨?_, ?_, ?_⟩ <;>
      simp [SandboxManager.stop_sandbox, h, dict_get_del_self]

/-- Witness for claim C3: an unknown id fails, the demo id stops once
and then fails on a second stop. -/
theorem claim_C3_witness :
    mgrEmpty.stop_sandbox "ghost" [] true = (false, mgrEmpty, []) ∧
    (mgrDemo.stop_sandbox "sb-demo" ["sb-demo"] true).1 = true ∧
    dict_get (mgrDemo.stop_sandbox "sb-demo" ["sb-demo"] true).2.1.active_sandboxes
      "sb-demo" = none ∧
    ((mgrDemo.stop_sandbox "sb-demo" ["sb-demo"] true).2.1.stop_sandbox
        "sb-demo" (mgrDemo.stop_sandbox "sb-demo" ["sb-demo"] true).2.2
        true).1 = false :=
  ⟨claim_C3_stop_semantics.1 mgrEmpty "ghost" [] true rfl,
   claim_C3_stop_semantics.2 mgrDemo "sb-demo" ["sb-demo"] true true sbDemo rfl⟩

/-- Claim C4 counterexample: by the code's own reporting the registered
demo sandbox is 'running' (its report status), yet a further
`execute_in_sandbox` on that id is not rejected — it proceeds to the
normal success outcome, so no AlreadyRunning rejection exists. -/
theorem claim_C4_counterexample :
    ((mgrDemoRunning.get_report "sb-demo" sampleIdle sampleIdle "t0").1.map
        SandboxReport.status) = some "running" ∧
    (mgrDemoRunning.execute_in_sandbox "sb-demo" worldQuick).1 ≠
      ExecOutcome.sandboxNotFound ∧
    (mgrDemoRunning.execute_in_sandbox "sb-demo" worldQuick).1 ≠
      ExecOutcome.preAnalysisError := by
  refine ⟨rfl, by decide, by decide⟩

/-- Claim C4 (amended): `execute` on an unknown id fails with the
not-found error and leaves the manager state unchanged; on any
registered id it is never refused — a missing target file yields the
pre-analysis error with no state change, and otherwise execution
proceeds to the success outcome. The code contains no AlreadyRunning
check of any kind. -/
theorem claim_C4_execute_rejections :
    (∀ (m : SandboxManager) (id : String) (w : ExecWorld),
        dict_get m.active_sandboxes id = none →
        m.execute_in_sandbox id w = (ExecOutcome.sandboxNotFound, m)) ∧
    (∀ (m : SandboxManager) (id : String) (w : ExecWorld) (sb : SandboxState),
        dict_get m.active_sandboxes id = some sb →
        (w.file_exists = false →
          m.execute_in_sandbox id w = (ExecOutcome.preAnalysisError, m)) ∧
        (w.file_exists = true →
          ∃ rc usage anomalies report,
            (m.execute_in_sandbox id w).1 =
              ExecOutcome.executed rc usage anomalies report)) := by
  refine ⟨?_, ?_⟩
  · intro m id w h
    simp [SandboxManager.execute_in_sandbox, h]
  · intro m id w sb h
    refine ⟨fun hf => ?_, fun hf => ?_⟩
    · simp [SandboxManager.execute_in_sandbox, h, hf]
    · refine ⟨(execute_program sb none w.spawn).1,
        monitor_resource_usage (execute_program sb none w.spawn).2.has_main
          w.post_usage,
        check_anomalies (execute_program sb none w.spawn).2.config
          (execute_program sb none w.spawn).2.has_main w.post_anom,
        generate_report (execute_program sb none w.spawn).2 w.report_usage
          w.report_anom w.now "completed" (some (execute_program sb none w.spawn).1),
        ?_⟩
      simp [SandboxManager.execute_in_sandbox, h, hf]

/-- Witness for claim C4: the unknown id "ghost" is rejected with no
state change, and the registered demo id proceeds to execution. -/
theorem claim_C4_witness :
    mgrEmpty.execute_in_sandbox "ghost" worldQuick =
      (ExecOutcome.sandboxNotFound, mgrEmpty) ∧
    (∃ rc usage anomalies report,
      (mgrDemo.execute_in_sandbox "sb-demo" worldQuick).1 =
        ExecOutcome.executed rc usage anomalies report) :=
  ⟨claim_C4_execute_rejections.1 mgrEmpty "ghost" worldQuick rfl,
   (claim_C4_execute_rejections.2 mgrDemo "sb-demo" worldQuick sbDemo rfl).2 rfl⟩

/-- Claim C9 counterexample: a stop whose `shutil.rmtree` fails still
returns success, and the workspace directory of the stopped sandbox
still exists on disk afterwards — refuting the claim that after every
successful stop the directory is gone. -/
theorem claim_C9_counterexample :
    (mgrDemo.stop_sandbox "sb-demo" ["sb-demo"] false).1 = true ∧
    "sb-demo" ∈ (mgrDemo.stop_sandbox "sb-demo" ["sb-demo"] false).2.2 := by
  refine ⟨rfl, by decide⟩

/-- Claim C9 (amended): a stop of a registered sandbox always returns
success; workspace removal is attempted, and when the removal succeeds
the directory no longer exists — but a removal failure is swallowed
(`except Exception: pass`), leaving the filesystem untouched while the
stop still reports success. -/
theorem claim_C9_workspace_cleanup :
    (∀ (m : SandboxManager) (id : String) (fs : List String)
        (sb : SandboxState) (rm : Bool),
        dict_get m.active_sandboxes id = some sb →
        (m.stop_sandbox id fs rm).1 = true) ∧
    (∀ (m : SandboxManager) (id : String) (fs : List String)
        (sb : SandboxState),
        dict_get m.active_sandboxes id = some sb →
        sb.config.sandbox_id ∉ (m.stop_sandbox id fs true).2.2) ∧
    (∀ (m : SandboxManager) (id : String) (fs : List String)
        (sb : SandboxState),
        dict_get m.active_sandboxes id = some sb →
        (m.stop_sandbox id fs false).2.2 = fs) := by
  refine ⟨?_, ?_, ?_⟩
  · intro m id fs sb rm h
    simp [SandboxManager.stop_sandbox, h]
  · intro m id fs sb h
    simp [SandboxManager.stop_sandbox, h, SandboxEnvironment.terminate,
      List.mem_filter]
  · intro m id fs sb h
    simp [SandboxManager.stop_sandbox, h, SandboxEnvironment.terminate]

/-- Witness for claim C9: stopping the demo sandbox with a successful
removal reports success and its directory is gone; with a failed
removal the filesystem is untouched yet stop still succeeds. -/
theorem claim_C9_witness :
    (mgrDemo.stop_sandbox "sb-demo" ["sb-demo"] true).1 = true ∧
    sbDemo.config.sandbox_id ∉
      (mgrDemo.stop_sandbox "sb-demo" ["sb-demo"] true).2.2 ∧
    (mgrDemo.stop_sandbox "sb-demo" ["sb-demo"] false).2.2 = ["sb-demo"] :=
  ⟨claim_C9_workspace_cleanup.1 mgrDemo "sb-demo" ["sb-demo"] sbDemo true rfl,
   claim_C9_workspace_cleanup.2.1 mgrDemo "sb-demo" ["sb-demo"] sbDemo rfl,
   claim_C9_workspace_cleanup.2.2 mgrDemo "sb-demo" ["sb-demo"] sbDemo rfl⟩

end SafeBox
